import Mathlib

/-!
Shallow embedding of the GPX track parsing and route-statistics engine of
`src/adv-moto-web/src/services/gpxParser.ts` (class `GPXParser`).

Numeric model: JavaScript numbers are modelled exactly.  Values flowing
through the point pipeline (attribute values, elevations) are values of
`JsNum`: a rational, `NaN`, or a signed infinity; binary-float rounding is
not modelled (the arithmetic the engine performs there is exact addition,
subtraction, absolute value and comparison).  The distance pipeline applies
transcendental functions, so there a finite JS number lives in `ℝ` and a JS
number is `JsR := Option ℝ` with `none` playing NaN (infinities cannot
arise in that pipeline).

Document model: the engine reads its input string only through `DOMParser`,
and it queries the resulting document only for: the `parsererror` check,
the `trkpt` / `rtept` / `wpt` element lists, per point element the
`lat` / `lon` attributes and the first `ele` / `time` descendants, and the
first `name` element of the whole document.  `XmlDoc` records exactly these
projections.  An attribute or `ele` text string is observed by the code
only through JS truthiness (is it the empty string) and `parseFloat`, so
such a string is modelled by `TextVal`: `empty`, or `nonempty v` where `v`
is its `parseFloat` value.  `time` text is stored verbatim, hence stays a
`String`.
-/

namespace AdvMoto

/-- A JavaScript number as observed by the point pipeline: `NaN`, `Infinity`,
`-Infinity`, or a finite value (modelled exactly as a rational). -/
inductive JsNum where
  | nan : JsNum
  | inf : JsNum
  | neginf : JsNum
  | finite (q : ℚ) : JsNum
deriving DecidableEq, Repr

/-- JS `isNaN` on a number. -/
def jsIsNaN : JsNum → Bool
  | .nan => true
  | _ => false

/-- JS truthiness of a number: `NaN` and `0` are falsy, everything else truthy. -/
def jsTruthy : JsNum → Bool
  | .nan => false
  | .finite q => decide (q ≠ 0)
  | _ => true

/-- JS subtraction `a - b` (IEEE rules for the special values). -/
def jsSub : JsNum → JsNum → JsNum
  | .nan, _ => .nan
  | _, .nan => .nan
  | .inf, .inf => .nan
  | .neginf, .neginf => .nan
  | .inf, _ => .inf
  | .neginf, _ => .neginf
  | _, .inf => .neginf
  | _, .neginf => .inf
  | .finite a, .finite b => .finite (a - b)

/-- JS addition `a + b` (IEEE rules for the special values). -/
def jsAdd : JsNum → JsNum → JsNum
  | .nan, _ => .nan
  | _, .nan => .nan
  | .inf, .neginf => .nan
  | .neginf, .inf => .nan
  | .inf, _ => .inf
  | _, .inf => .inf
  | .neginf, _ => .neginf
  | _, .neginf => .neginf
  | .finite a, .finite b => .finite (a + b)

/-- JS `Math.abs`. -/
def jsAbs : JsNum → JsNum
  | .nan => .nan
  | .inf => .inf
  | .neginf => .inf
  | .finite q => .finite |q|

/-- JS comparison `x > 0` (false on `NaN`). -/
def jsGt0 : JsNum → Bool
  | .finite q => decide (0 < q)
  | .inf => true
  | _ => false

/-- JS `Math.round`: for a finite value this is `⌊x + 1/2⌋`, which is
Mathlib's `round`; `NaN` and the infinities are returned unchanged. -/
def jsRound : JsNum → JsNum
  | .nan => .nan
  | .inf => .inf
  | .neginf => .neginf
  | .finite q => .finite ((round q : ℤ) : ℚ)

/-- The source's `x || 0` idiom on an optional number: `undefined`, `NaN`
and `0` all become `0`. -/
def jsOrZero : Option JsNum → JsNum
  | some v => if jsTruthy v then v else .finite 0
  | none => .finite 0

/-- A non-null DOM string as the engine observes it: empty, or nonempty
together with its `parseFloat` value (`parseFloat("") = NaN`). -/
inductive TextVal where
  | empty : TextVal
  | nonempty (v : JsNum) : TextVal
deriving DecidableEq, Repr

/-- Models `parseFloat(el.getAttribute(name) || '0')`: a missing attribute
(`getAttribute` returns null) and an empty attribute string are both falsy,
so the string `"0"` is parsed instead and the result is `0`. -/
def attrValue : Option TextVal → JsNum
  | none => .finite 0
  | some .empty => .finite 0
  | some (.nonempty v) => v

/-- A `trkpt` / `rtept` / `wpt` element, by the projections the code reads. -/
structure PtElem where
  lat : Option TextVal
  lon : Option TextVal
  ele : Option TextVal
  time : Option String
deriving DecidableEq, Repr

/-- A parsed document (the `DOMParser` output), by the projections the code
reads.  `parserError` states whether the document contains a `parsererror`
element, i.e. whether the input was not well-formed markup; `name0` is the
text of the first `name` element of the whole document, if any. -/
structure XmlDoc where
  parserError : Bool
  trkpts : List PtElem
  rtepts : List PtElem
  wpts : List PtElem
  name0 : Option String
deriving DecidableEq, Repr

/-- The source's `GPXTrackPoint`. -/
structure GPXTrackPoint where
  lat : JsNum
  lon : JsNum
  ele : Option JsNum
  time : Option String
deriving DecidableEq, Repr

/-- A JS number in the distance pipeline: `none` is NaN. -/
def JsR : Type := Option ℝ

/-- JS addition on distance-pipeline numbers (NaN propagates). -/
noncomputable def jrAdd : JsR → JsR → JsR
  | some a, some b => some (a + b)
  | _, _ => none

/-- Division by a (nonzero finite) constant. -/
noncomputable def jrDivC (a : JsR) (c : ℝ) : JsR :=
  Option.map (fun x => x / c) a

/-- Multiplication by a finite constant. -/
noncomputable def jrMulC (a : JsR) (c : ℝ) : JsR :=
  Option.map (fun x => x * c) a

/-- JS `Math.round` on a distance-pipeline number. -/
noncomputable def jrRound : JsR → JsR :=
  Option.map fun x => ((round x : ℤ) : ℝ)

/-- The source's 2-decimal rounding `Math.round(x * 100) / 100`. -/
noncomputable def jrRound2 : JsR → JsR :=
  Option.map fun x => (((round (x * 100) : ℤ) : ℝ) / 100)

/-- The result record of `GPXParser.calculateStats`. -/
structure Stats where
  distance : JsR
  elevationGain : JsNum
  elevationLoss : JsNum
  estimatedTime : JsR

/-- The engine's output record (the source's `GPXData`). -/
structure GPXData where
  name : Option String
  points : List GPXTrackPoint
  distance : JsR
  elevationGain : JsNum
  elevationLoss : JsNum
  estimatedTime : JsR

/-- The three throw sites of `GPXParser.parse`, in source order:
"GPX 文件格式错误", "GPX 文件中没有找到轨迹点", "GPX 文件中有效轨迹点少于2个". -/
inductive ParseError where
  | malformedDocument : ParseError
  | noTrackData : ParseError
  | insufficientPoints : ParseError
deriving DecidableEq, Repr

namespace GPXParser

/-- `degrees * (Math.PI / 180)`. -/
noncomputable def toRadians (degrees : ℝ) : ℝ :=
  degrees * (Real.pi / 180)

/-- JS `Math.sqrt`: NaN on negative input. -/
noncomputable def jsSqrt (x : ℝ) : JsR :=
  if x < 0 then none else some (Real.sqrt x)

/-- JS `Math.atan2` on finite arguments (signed zeros are not modelled, so
`atan2(0, 0) = 0`). -/
noncomputable def jsAtan2 (y x : ℝ) : ℝ :=
  if 0 < x then Real.arctan (y / x)
  else if x < 0 then
    (if 0 ≤ y then Real.arctan (y / x) + Real.pi else Real.arctan (y / x) - Real.pi)
  else if 0 < y then Real.pi / 2
  else if y < 0 then -(Real.pi / 2)
  else 0

/-- The haversine accumulator `a` of `GPXParser.calculateDistance`. -/
noncomputable def haversineA (lat1 lon1 lat2 lon2 : ℝ) : ℝ :=
  let dLat := toRadians (lat2 - lat1)
  let dLon := toRadians (lon2 - lon1)
  Real.sin (dLat / 2) * Real.sin (dLat / 2) +
    Real.cos (toRadians lat1) * Real.cos (toRadians lat2) *
    Real.sin (dLon / 2) * Real.sin (dLon / 2)

/-- `GPXParser.calculateDistance` (haversine, R = 6371 km) on finite inputs.
`Math.sqrt` of a negative argument is NaN and NaN propagates through
`Math.atan2` and the final product, hence the `none` fallthrough; the
accumulator `a` is in fact always inside `[0, 1]` (proved below), so the
fallthrough is unreachable. -/
noncomputable def calculateDistance (lat1 lon1 lat2 lon2 : ℝ) : JsR :=
  let R : ℝ := 6371
  let a := haversineA lat1 lon1 lat2 lon2
  match jsSqrt a, jsSqrt (1 - a) with
  | some sa, some sb => some (R * (2 * jsAtan2 sa sb))
  | _, _ => none

/-- `calculateDistance` applied to two track points.  If any coordinate is
`Infinity` or `-Infinity` the JS computation yields NaN (`Math.sin` and
`Math.cos` of an infinity are NaN, `Infinity - Infinity` is NaN, and NaN
propagates), hence the `none` fallthrough. -/
noncomputable def pointDistance (p q : GPXTrackPoint) : JsR :=
  match p.lat, p.lon, q.lat, q.lon with
  | .finite a, .finite b, .finite c, .finite d =>
      calculateDistance (a : ℝ) (b : ℝ) (c : ℝ) (d : ℝ)
  | _, _, _, _ => none

/-- Loop state of `GPXParser.calculateStats`. -/
structure StatsState where
  totalDistance : JsR
  elevationGain : JsNum
  elevationLoss : JsNum
  lastEle : JsNum

/-- Models `let lastEle = points[0].ele || 0`.  (On an empty list the source
would dereference `undefined`; `calculateStats` is only invoked with at
least 2 points.) -/
def initLastEle : List GPXTrackPoint → JsNum
  | [] => .finite 0
  | p :: _ => jsOrZero p.ele

/-- One iteration of the `calculateStats` loop, on the pair
`(points[i-1], points[i])`. -/
noncomputable def statsStep (s : StatsState) (pc : GPXTrackPoint × GPXTrackPoint) : StatsState :=
  let s1 : StatsState :=
    { s with totalDistance := jrAdd s.totalDistance (pointDistance pc.1 pc.2) }
  match pc.2.ele with
  | none => s1
  | some e =>
    let eleDiff := jsSub e s.lastEle
    if jsGt0 eleDiff then
      { s1 with elevationGain := jsAdd s1.elevationGain eleDiff, lastEle := e }
    else
      { s1 with elevationLoss := jsAdd s1.elevationLoss (jsAbs eleDiff), lastEle := e }

/-- The `calculateStats` loop over `i = 1 .. points.length - 1`: a fold of
`statsStep` over the consecutive pairs `(points[i-1], points[i])`. -/
noncomputable def statsAccum (points : List GPXTrackPoint) : StatsState :=
  (points.zip points.tail).foldl statsStep
    { totalDistance := some 0, elevationGain := .finite 0, elevationLoss := .finite 0,
      lastEle := initLastEle points }

/-- `GPXParser.calculateStats`: the loop, then rounding (2 decimals for the
distance, nearest integer for the elevation fields) and the estimated time
`Math.round((totalDistance / 30) * 60)` with the hard-coded average speed
constant `avgSpeed = 30` km/h. -/
noncomputable def calculateStats (points : List GPXTrackPoint) : Stats :=
  let st := statsAccum points
  let avgSpeed : ℝ := 30
  { distance := jrRound2 st.totalDistance,
    elevationGain := jsRound st.elevationGain,
    elevationLoss := jsRound st.elevationLoss,
    estimatedTime := jrRound (jrMulC (jrDivC st.totalDistance avgSpeed) 60) }

/-- The per-point body of the extraction loop of `GPXParser.parse`:
`parseFloat(getAttribute('lat') || '0')`, likewise for `lon`, `continue`
when either is NaN, then the optional `ele` (attached iff an `ele` child
exists with nonempty text, as the `parseFloat` of that text) and `time`
(attached verbatim iff a `time` child exists with nonempty text). -/
def parsePoint (e : PtElem) : Option GPXTrackPoint :=
  let lat := attrValue e.lat
  let lon := attrValue e.lon
  if jsIsNaN lat || jsIsNaN lon then none
  else
    let eleV : Option JsNum :=
      match e.ele with
      | some (.nonempty v) => some v
      | _ => none
    let timeV : Option String :=
      match e.time with
      | some s => if s = "" then none else some s
      | none => none
    some { lat := lat, lon := lon, ele := eleV, time := timeV }

/-- The three-tier fallback of `GPXParser.parse`: `trkpt` elements if any,
else `rtept` elements if any, else `wpt` elements. -/
def selectTier (d : XmlDoc) : List PtElem :=
  if d.trkpts ≠ [] then d.trkpts
  else if d.rtepts ≠ [] then d.rtepts
  else d.wpts

/-- `GPXParser.parse`, after `DOMParser` (whose output is the `XmlDoc`). -/
noncomputable def parse (doc : XmlDoc) : Except ParseError GPXData :=
  if doc.parserError then .error .malformedDocument
  else
    let trackPoints := selectTier doc
    if trackPoints = [] then .error .noTrackData
    else
      let points := trackPoints.filterMap parsePoint
      if points.length < 2 then .error .insufficientPoints
      else
        let stats := calculateStats points
        let nameV : Option String :=
          match doc.name0 with
          | some s => if s = "" then none else some s
          | none => none
        .ok { name := nameV,
              points := points,
              distance := stats.distance,
              elevationGain := stats.elevationGain,
              elevationLoss := stats.elevationLoss,
              estimatedTime := stats.estimatedTime }

/-- `GPXParser.toGeoJSONCoordinates`: `[lon, lat]` per point. -/
def toGeoJSONCoordinates (g : GPXData) : List (JsNum × JsNum) :=
  g.points.map fun p => (p.lon, p.lat)

/-- `GPXParser.getElevationData`: `p.ele || 0` per point. -/
def getElevationData (g : GPXData) : List JsNum :=
  g.points.map fun p => jsOrZero p.ele

/-- The string `GPXParser.generateGPX` emits, by what a reparse observes:
the document content (`doc`) plus the metadata `time` element text, which
the source fills with `new Date().toISOString()` — the ambient clock, made
an explicit argument `now` of the model. -/
structure SerializedGPX where
  doc : XmlDoc
  metadataTime : String
deriving DecidableEq, Repr

/-- A character the XML 1.0 `Char` production permits in a document. -/
def xmlChar (c : Char) : Bool :=
  decide (c.toNat = 0x9) || decide (c.toNat = 0xA) || decide (c.toNat = 0xD) ||
  (decide (0x20 ≤ c.toNat) && decide (c.toNat ≤ 0xD7FF)) ||
  (decide (0xE000 ≤ c.toNat) && decide (c.toNat ≤ 0xFFFD)) ||
  (decide (0x10000 ≤ c.toNat) && decide (c.toNat ≤ 0x10FFFF))

/-- Raw text that, spliced unescaped into element content, is certainly
valid character data re-parsing to itself: conservatively, printable ASCII
without the markup-significant characters — no ampersand, no left angle
bracket, and no right square bracket (excluding the forbidden sequence of
two right square brackets and a greater-than sign wholesale). -/
def verbatimText (s : String) : Bool :=
  s.data.all fun c =>
    decide (0x20 ≤ c.toNat) && decide (c.toNat ≤ 0x7E) &&
    !(decide (c = '&')) && !(decide (c = '<')) && !(decide (c = ']'))

/-- Raw text that, spliced unescaped into element content, certainly makes
the document ill-formed: it carries a character XML forbids outright, or an
ampersand while the string holds no semicolon at all (such an ampersand can
never close an entity reference). -/
def certainlyIllFormedText (s : String) : Bool :=
  (s.data.any fun c => !xmlChar c) ||
  ((s.data.any fun c => decide (c = '&')) && !(s.data.any fun c => decide (c = ';')))

/-- The emitted title certainly makes the document ill-formed: `escapeXml`
escapes the five markup-special characters, so only a character XML forbids
outright survives to break well-formedness. -/
def titleIllFormed (title : String) : Bool :=
  title.data.any fun c => !xmlChar c

/-- The `trkpt` element emitted for one point.  `String(n)` is a nonempty
numeric literal with `parseFloat(String(n)) = n` for every non-NaN JS
number, and `String(NaN) = "NaN"` parses back to NaN, so at the `TextVal`
quotient the emitted attribute/text is `nonempty` with the same value.
The `ele` child is emitted iff `point.ele !== undefined` and the `time`
child iff `point.time` is truthy (present and nonempty).  The `time` field
records the emitted text VERBATIM: the source splices `point.time` into
the document with no XML escaping, so this field equals the re-parsed
`textContent` only when the text is markup-safe (`verbatimText`); when it
is not, the document may be ill-formed instead — see the `parserError`
field computed by `generateGPX`. -/
def serializePt (p : GPXTrackPoint) : PtElem :=
  { lat := some (.nonempty p.lat),
    lon := some (.nonempty p.lon),
    ele := Option.map (fun v => TextVal.nonempty v) p.ele,
    time := match p.time with
      | some s => if s = "" then none else some s
      | none => none }

/-- Whether the emitted point makes the document certainly ill-formed: its
`time` child is emitted (present, nonempty) with certainly ill-formed raw
text.  Emitted numbers (`String(lat)` etc.) are always markup-safe. -/
def emittedPointIllFormed (p : GPXTrackPoint) : Bool :=
  match p.time with
  | some s => if s = "" then false else certainlyIllFormedText s
  | none => false

/-- `GPXParser.generateGPX` at the document level: the only point-bearing
elements are the emitted `trkpt`s, and the first `name` element (the
metadata name) has text `escapeXml(title)`, which the DOM decodes back to
`title`.  Because the source emits `point.time` UNESCAPED (only the title
goes through `escapeXml`), the emitted document is not always well-formed:
`parserError` is set when the title carries an XML-forbidden character or
some emitted `time` text is certainly ill-formed.  The flag (and the
verbatim `trkpts` content) is exact on the two decided regions — all
emitted `time` texts markup-safe (`verbatimText`), or some text certainly
ill-formed (`certainlyIllFormedText`); between them (e.g. a `time` text
containing both an ampersand and a semicolon, or a left angle bracket) the
outcome depends on full XML parsing, which this document-level model does
not attempt, and no theorem below relies on that region.  The metadata
`time` text (`now`, the ISO string of the clock) is always markup-safe. -/
def generateGPX (g : GPXData) (title : String) (now : String) : SerializedGPX :=
  { doc := { parserError := titleIllFormed title || g.points.any emittedPointIllFormed,
             trkpts := g.points.map serializePt,
             rtepts := [],
             wpts := [],
             name0 := some title },
    metadataTime := now }

end GPXParser

/-- The elevation of a point when it is known and finite. -/
def eleQ (p : GPXTrackPoint) : Option ℚ :=
  match p.ele with
  | some (.finite q) => some q
  | _ => none

/-- The initial previous-elevation reference: the first point's elevation
when known and finite, else `0`. -/
def eleRef (p : GPXTrackPoint) : ℚ :=
  (eleQ p).getD 0

/-- The point's elevation is absent or a finite number (not NaN, not an
infinity). -/
def eleFinOk (p : GPXTrackPoint) : Bool :=
  match p.ele with
  | none => true
  | some (.finite _) => true
  | some _ => false

/-- The point's elevation is present and finite. -/
def eleKnownFin (p : GPXTrackPoint) : Bool :=
  match p.ele with
  | some (.finite _) => true
  | _ => false

/-- Both coordinates of the point are finite numbers. -/
def coordFin (p : GPXTrackPoint) : Bool :=
  match p.lat, p.lon with
  | .finite _, .finite _ => true
  | _, _ => false

/-- Modelled from the spec wording of the elevation walk: accumulate into
gain the positive deltas between each known elevation and the carried
previous-known-elevation reference `ref`; unknown elevations are skipped
and do not reset `ref`. -/
def specGain (ref : ℚ) : List (Option ℚ) → ℚ
  | [] => 0
  | none :: t => specGain ref t
  | some e :: t => (if ref < e then e - ref else 0) + specGain e t

/-- Companion of `specGain` for the loss side (absolute negative deltas). -/
def specLoss (ref : ℚ) : List (Option ℚ) → ℚ
  | [] => 0
  | none :: t => specLoss ref t
  | some e :: t => (if ref < e then 0 else ref - e) + specLoss e t

/-- Modelled from the claim wording for C3: gain accumulated only between
consecutive entries of the known-elevation subsequence. -/
def claimGain : List ℚ → ℚ
  | a :: b :: t => (if a < b then b - a else 0) + claimGain (b :: t)
  | _ => 0

/-- Companion of `claimGain` for the loss side. -/
def claimLoss : List ℚ → ℚ
  | a :: b :: t => (if a < b then 0 else a - b) + claimLoss (b :: t)
  | _ => 0

/-- Modelled from the claim wording for C2: an attribute that is present
and parses to a finite number. -/
def attrFiniteVal : Option TextVal → Bool
  | some (.nonempty (.finite _)) => true
  | _ => false

/-- Modelled from the claim wording for C2: the number of point elements
whose `lat` and `lon` attributes are both present and parse to finite
numbers. -/
def attrFiniteCount (l : List PtElem) : ℕ :=
  (l.filter fun e => attrFiniteVal e.lat && attrFiniteVal e.lon).length

/-- A sample point element with both attributes `"0"`. -/
def e00 : PtElem :=
  ⟨some (.nonempty (.finite 0)), some (.nonempty (.finite 0)), none, none⟩

section ParseInversion

open GPXParser

theorem selectTier_eq_nil_iff (d : XmlDoc) :
    selectTier d = [] ↔ d.trkpts = [] ∧ d.rtepts = [] ∧ d.wpts = [] := by
  unfold selectTier
  split_ifs with h1 h2 <;> simp_all

theorem parse_ok_of {doc : XmlDoc} (h1 : doc.parserError = false)
    (h2 : selectTier doc ≠ [])
    (h3 : ¬((selectTier doc).filterMap parsePoint).length < 2) :
    parse doc = .ok
      { name := match doc.name0 with
          | some s => if s = "" then none else some s
          | none => none,
        points := (selectTier doc).filterMap parsePoint,
        distance := (calculateStats ((selectTier doc).filterMap parsePoint)).distance,
        elevationGain := (calculateStats ((selectTier doc).filterMap parsePoint)).elevationGain,
        elevationLoss := (calculateStats ((selectTier doc).filterMap parsePoint)).elevationLoss,
        estimatedTime :=
          (calculateStats ((selectTier doc).filterMap parsePoint)).estimatedTime } := by
  unfold parse
  rw [h1]
  simp only [Bool.false_eq_true, if_false, if_neg h2, if_neg h3]

theorem parse_ok_elim {doc : XmlDoc} {g : GPXData} (h : parse doc = .ok g) :
    doc.parserError = false ∧ selectTier doc ≠ [] ∧
      g.points = (selectTier doc).filterMap parsePoint ∧ 2 ≤ g.points.length := by
  unfold parse at h
  by_cases h1 : doc.parserError = true
  · rw [if_pos h1] at h; cases h
  rw [if_neg h1] at h
  by_cases h2 : selectTier doc = []
  · rw [if_pos h2] at h; cases h
  rw [if_neg h2] at h
  by_cases h3 : ((selectTier doc).filterMap parsePoint).length < 2
  · rw [if_pos h3] at h; cases h
  rw [if_neg h3] at h
  simp only [Except.ok.injEq] at h
  subst h
  exact ⟨by simpa using h1, h2, rfl, by simpa using Nat.le_of_not_lt h3⟩

theorem parse_congr {d1 d2 : XmlDoc} (hpe : d1.parserError = d2.parserError)
    (hsel : selectTier d1 = selectTier d2) (hn : d1.name0 = d2.name0) :
    parse d1 = parse d2 := by
  unfold parse
  rw [hpe, hsel, hn]

end ParseInversion

/-- C1: for every input, `parse` either succeeds with a complete result
holding at least 2 points, or fails with exactly one of the three errors:
`malformedDocument` when the document is not well-formed markup,
`noTrackData` when it is well-formed but has no `trkpt`, `rtept` or `wpt`
element, and `insufficientPoints` when point elements exist but fewer than
2 points survive the per-point coordinate validation. -/
theorem c1_error_trichotomy (doc : XmlDoc) :
    (doc.parserError = true ∧ GPXParser.parse doc = .error .malformedDocument) ∨
    (doc.parserError = false ∧ doc.trkpts = [] ∧ doc.rtepts = [] ∧ doc.wpts = [] ∧
      GPXParser.parse doc = .error .noTrackData) ∨
    (doc.parserError = false ∧ GPXParser.selectTier doc ≠ [] ∧
      ((GPXParser.selectTier doc).filterMap GPXParser.parsePoint).length < 2 ∧
      GPXParser.parse doc = .error .insufficientPoints) ∨
    (∃ g, GPXParser.parse doc = .ok g ∧ 2 ≤ g.points.length) := by
  cases hpe : doc.parserError with
  | true => exact Or.inl ⟨rfl, by unfold GPXParser.parse; rw [hpe]; rfl⟩
  | false =>
    by_cases hsel : GPXParser.selectTier doc = []
    · refine Or.inr (Or.inl ?_)
      have h3 := (selectTier_eq_nil_iff doc).1 hsel
      refine ⟨rfl, h3.1, h3.2.1, h3.2.2, ?_⟩
      unfold GPXParser.parse
      rw [hpe]
      simp [hsel]
    · by_cases hlen : ((GPXParser.selectTier doc).filterMap GPXParser.parsePoint).length < 2
      · refine Or.inr (Or.inr (Or.inl ⟨rfl, hsel, hlen, ?_⟩))
        unfold GPXParser.parse
        rw [hpe]
        simp [hsel, hlen]
      · exact Or.inr (Or.inr (Or.inr
          ⟨_, parse_ok_of hpe hsel hlen, by simpa using Nat.le_of_not_lt hlen⟩))

/-- C5: point extraction uses exactly one tier, chosen in the fixed
priority order `trkpt`, then `rtept`, then `wpt` (first nonempty tier,
never merged), and a well-formed document carrying a given element list as
its only tier parses identically whichever of the three tiers carries it. -/
theorem c5_tier_priority (t r w pts : List PtElem) (n : Option String) :
    (t ≠ [] → GPXParser.selectTier ⟨false, t, r, w, n⟩ = t) ∧
    (t = [] → r ≠ [] → GPXParser.selectTier ⟨false, t, r, w, n⟩ = r) ∧
    (t = [] → r = [] → GPXParser.selectTier ⟨false, t, r, w, n⟩ = w) ∧
    GPXParser.parse ⟨false, pts, [], [], n⟩ = GPXParser.parse ⟨false, [], pts, [], n⟩ ∧
    GPXParser.parse ⟨false, [], pts, [], n⟩ = GPXParser.parse ⟨false, [], [], pts, n⟩ := by
  refine ⟨fun ht => by simp [GPXParser.selectTier, ht],
    fun ht hr => by simp [GPXParser.selectTier, ht, hr],
    fun ht hr => by simp [GPXParser.selectTier, ht, hr], ?_, ?_⟩ <;>
  · refine parse_congr rfl ?_ rfl
    by_cases hp : pts = [] <;> simp [GPXParser.selectTier, hp]

/-- Witness for C5 at concrete tiers. -/
theorem c5_tier_priority_witness :
    GPXParser.selectTier ⟨false, [e00], [e00, e00], [], none⟩ = [e00] ∧
    GPXParser.selectTier ⟨false, [], [e00, e00], [], none⟩ = [e00, e00] ∧
    GPXParser.selectTier ⟨false, [], [], [e00], none⟩ = [e00] ∧
    GPXParser.parse ⟨false, [e00, e00], [], [], none⟩ =
      GPXParser.parse ⟨false, [], [e00, e00], [], none⟩ ∧
    GPXParser.parse ⟨false, [], [e00, e00], [], none⟩ =
      GPXParser.parse ⟨false, [], [], [e00, e00], none⟩ :=
  ⟨(c5_tier_priority [e00] [e00, e00] [] [e00, e00] none).1 (by simp),
   (c5_tier_priority [] [e00, e00] [] [e00, e00] none).2.1 rfl (by simp),
   (c5_tier_priority [] [] [e00] [e00, e00] none).2.2.1 rfl rfl,
   (c5_tier_priority [] [] [] [e00, e00] none).2.2.2.1,
   (c5_tier_priority [] [] [] [e00, e00] none).2.2.2.2⟩

section ConcreteEval

open GPXParser

theorem toRadians_zero : toRadians 0 = 0 := by
  unfold toRadians
  rw [zero_mul]

theorem haversineA_same (a b : ℝ) : haversineA a b a b = 0 := by
  unfold haversineA
  simp [toRadians_zero, Real.sin_zero]

theorem jsSqrt_zero : jsSqrt 0 = some 0 := by
  unfold jsSqrt
  rw [if_neg (lt_irrefl 0), Real.sqrt_zero]

theorem jsAtan2_zero_one : jsAtan2 0 1 = 0 := by
  unfold jsAtan2
  rw [if_pos (by norm_num : (0:ℝ) < 1)]
  simp [Real.arctan_zero]

theorem calculateDistance_same (a b : ℝ) : calculateDistance a b a b = some 0 := by
  unfold calculateDistance
  rw [haversineA_same]
  show (match jsSqrt 0, jsSqrt (1 - 0) with
    | some sa, some sb => some ((6371 : ℝ) * (2 * jsAtan2 sa sb))
    | _, _ => none) = some 0
  have h2 : jsSqrt (1 - 0) = some 1 := by
    unfold jsSqrt
    rw [if_neg (by norm_num)]
    norm_num
  rw [jsSqrt_zero, h2]
  show some ((6371 : ℝ) * (2 * jsAtan2 0 1)) = some 0
  rw [jsAtan2_zero_one]
  norm_num

/-- A sample track point at the origin. -/
def p00 : GPXTrackPoint := ⟨.finite 0, .finite 0, none, none⟩

/-- A sample well-formed two-point document. -/
def wdoc : XmlDoc := ⟨false, [e00, e00], [], [], none⟩

/-- The parse result of `wdoc`. -/
def wdata : GPXData := ⟨none, [p00, p00], some 0, .finite 0, .finite 0, some 0⟩

theorem pointDistance_p00 : pointDistance p00 p00 = some 0 := by
  show calculateDistance ((0 : ℚ) : ℝ) ((0 : ℚ) : ℝ) ((0 : ℚ) : ℝ) ((0 : ℚ) : ℝ) = some 0
  exact calculateDistance_same _ _

theorem statsStep_ele_none (s : StatsState) (p q : GPXTrackPoint) (h : q.ele = none) :
    statsStep s (p, q) =
      { s with totalDistance := jrAdd s.totalDistance (pointDistance p q) } := by
  unfold statsStep
  dsimp only
  rw [h]

theorem statsStep_ele_some (s : StatsState) (p q : GPXTrackPoint) (e : JsNum)
    (h : q.ele = some e) :
    statsStep s (p, q) =
      (if jsGt0 (jsSub e s.lastEle) then
        { totalDistance := jrAdd s.totalDistance (pointDistance p q),
          elevationGain := jsAdd s.elevationGain (jsSub e s.lastEle),
          elevationLoss := s.elevationLoss, lastEle := e }
      else
        { totalDistance := jrAdd s.totalDistance (pointDistance p q),
          elevationGain := s.elevationGain,
          elevationLoss := jsAdd s.elevationLoss (jsAbs (jsSub e s.lastEle)),
          lastEle := e }) := by
  unfold statsStep
  dsimp only
  rw [h]

theorem statsAccum_wpts :
    statsAccum [p00, p00] =
      ⟨some ((0 : ℝ) + 0), .finite 0, .finite 0, .finite 0⟩ := by
  unfold statsAccum
  rw [show [p00, p00].zip [p00, p00].tail = [(p00, p00)] from rfl, List.foldl_cons,
    List.foldl_nil, statsStep_ele_none _ p00 p00 rfl, pointDistance_p00]
  rfl

theorem calculateStats_wpts :
    calculateStats [p00, p00] = ⟨some 0, .finite 0, .finite 0, some 0⟩ := by
  unfold calculateStats
  rw [statsAccum_wpts]
  simp only [Stats.mk.injEq]
  refine ⟨?_, by simp [jsRound], by simp [jsRound], ?_⟩
  · unfold jrRound2
    simp only [Option.map]
    norm_num
  · unfold jrRound jrMulC jrDivC
    simp only [Option.map]
    norm_num

theorem parse_wdoc : parse wdoc = .ok wdata := by
  rw [parse_ok_of rfl (by decide) (by decide)]
  have hpts : (selectTier wdoc).filterMap parsePoint = [p00, p00] := rfl
  simp only [Except.ok.injEq, GPXData.mk.injEq, hpts, calculateStats_wpts]
  rfl

end ConcreteEval

section C2

open GPXParser

/-- Document with two `trkpt`s: the first has no `lat` attribute at all,
the second has `lat="0"`; both have `lon="5"`. -/
def c2doc : XmlDoc :=
  ⟨false, [⟨none, some (.nonempty (.finite 5)), none, none⟩,
           ⟨some (.nonempty (.finite 0)), some (.nonempty (.finite 5)), none, none⟩],
   [], [], none⟩

/-- Counterexample to C2 as stated: in `c2doc` only one point element has
both coordinate attributes present (and finite), yet `parse` returns two
points — the element with the absent `lat` attribute is not excluded; it is
kept with latitude 0, because the source evaluates
`parseFloat(getAttribute('lat') || '0')` and only NaN results are skipped. -/
theorem c2_absent_attr_cex :
    (parse c2doc).toOption.map (fun g => g.points) =
      some [{ lat := .finite 0, lon := .finite 5, ele := none, time := none },
            { lat := .finite 0, lon := .finite 5, ele := none, time := none }] ∧
    attrFiniteCount c2doc.trkpts = 1 := by
  constructor
  · rfl
  · rfl

theorem length_filterMap_parsePoint (l : List PtElem) :
    (l.filterMap parsePoint).length =
      (l.filter fun e => !jsIsNaN (attrValue e.lat) && !jsIsNaN (attrValue e.lon)).length := by
  induction l with
  | nil => rfl
  | cons e t ih =>
    rw [List.filterMap_cons, List.filter_cons]
    cases hc : (jsIsNaN (attrValue e.lat) || jsIsNaN (attrValue e.lon)) with
    | true =>
      have hnone : parsePoint e = none := by
        simp only [parsePoint]
        rw [if_pos hc]
      have hcond : (!jsIsNaN (attrValue e.lat) && !jsIsNaN (attrValue e.lon)) = false := by
        cases h1 : jsIsNaN (attrValue e.lat) <;> cases h2 : jsIsNaN (attrValue e.lon) <;>
          simp_all
      rw [hnone, hcond]
      simpa using ih
    | false =>
      have hcond : (!jsIsNaN (attrValue e.lat) && !jsIsNaN (attrValue e.lon)) = true := by
        cases h1 : jsIsNaN (attrValue e.lat) <;> cases h2 : jsIsNaN (attrValue e.lon) <;>
          simp_all
      have hsome : ∃ p, parsePoint e = some p := by
        simp only [parsePoint]
        rw [if_neg (by simp [hc])]
        exact ⟨_, rfl⟩
      obtain ⟨p, hp⟩ := hsome
      rw [hp, hcond]
      simp [ih]

/-- Amended C2: a point element is excluded exactly when its defaulted
latitude or longitude parses to NaN.  An absent (or empty) attribute is
defaulted to the string "0" and therefore yields coordinate 0 — the point
is kept — and a value parsing to an infinity is kept as well; the returned
point count equals the number of elements in the selected tier whose
defaulted `lat` and `lon` values are both non-NaN. -/
theorem c2_nan_filter (doc : XmlDoc) (g : GPXData) (h : parse doc = .ok g) :
    g.points = (selectTier doc).filterMap parsePoint ∧
    g.points.length = ((selectTier doc).filter fun e =>
      !jsIsNaN (attrValue e.lat) && !jsIsNaN (attrValue e.lon)).length := by
  obtain ⟨-, -, hpts, -⟩ := parse_ok_elim h
  exact ⟨hpts, by rw [hpts, length_filterMap_parsePoint]⟩

/-- Witness for the amended C2 at the concrete document `wdoc`. -/
theorem c2_nan_filter_witness :
    parse wdoc = .ok wdata ∧
    wdata.points = (selectTier wdoc).filterMap parsePoint ∧
    wdata.points.length = ((selectTier wdoc).filter fun e =>
      !jsIsNaN (attrValue e.lat) && !jsIsNaN (attrValue e.lon)).length :=
  ⟨parse_wdoc, c2_nan_filter wdoc wdata parse_wdoc⟩

end C2

section C8

open GPXParser

/-- Document whose first `trkpt` has an `ele` child with nonempty
non-numeric text (its `parseFloat` value is NaN). -/
def c8doc : XmlDoc :=
  ⟨false, [⟨some (.nonempty (.finite 0)), some (.nonempty (.finite 0)),
            some (.nonempty .nan), none⟩, e00], [], [], none⟩

/-- Counterexample to C8 as stated: the first point element of `c8doc` has
an `ele` child whose text is not numeric, yet the parsed point's elevation
is not left unknown — it is set to NaN (`pt.ele = parseFloat(text)` is
guarded only by the text being nonempty, not by it being numeric). -/
theorem c8_nan_ele_cex :
    (parse c8doc).toOption.map (fun g => g.points.map fun p => p.ele) =
      some [some .nan, none] := by
  rfl

/-- Amended C8: a parsed point's elevation is attached iff the element has
an `ele` child with nonempty text, and the attached value is the
`parseFloat` of that text — which is NaN when the text is not numeric;
only an absent `ele` child or one with empty text leaves the elevation
unknown. -/
theorem c8_ele_attachment (e : PtElem) (p : GPXTrackPoint)
    (h : parsePoint e = some p) :
    (∀ v, e.ele = some (.nonempty v) → p.ele = some v) ∧
    ((e.ele = none ∨ e.ele = some .empty) → p.ele = none) := by
  unfold parsePoint at h
  by_cases hn : (jsIsNaN (attrValue e.lat) || jsIsNaN (attrValue e.lon)) = true
  · rw [if_pos hn] at h; cases h
  rw [if_neg hn] at h
  simp only [Option.some.injEq] at h
  subst h
  constructor
  · intro v hv
    simp [hv]
  · rintro (hv | hv) <;> simp [hv]

/-- Witness for the amended C8: an `ele` child with numeric text 7 yields
elevation 7. -/
theorem c8_ele_attachment_witness :
    parsePoint ⟨some (.nonempty (.finite 0)), some (.nonempty (.finite 0)),
        some (.nonempty (.finite 7)), none⟩ =
      some ⟨.finite 0, .finite 0, some (.finite 7), none⟩ ∧
    (⟨.finite 0, .finite 0, some (.finite 7), none⟩ : GPXTrackPoint).ele =
      some (.finite 7) :=
  ⟨rfl, (c8_ele_attachment
    ⟨some (.nonempty (.finite 0)), some (.nonempty (.finite 0)),
      some (.nonempty (.finite 7)), none⟩
    ⟨.finite 0, .finite 0, some (.finite 7), none⟩ rfl).1 (.finite 7) rfl⟩

end C8

section C9

open GPXParser

/-- Counterexample to C9 as stated: `generateGPX` (the spec's `serialize`)
is not a deterministic function of its `(track, title)` arguments — it
embeds the current clock reading (`new Date().toISOString()`) in the
metadata `time` element, so two invocations with identical arguments at
different instants produce different documents. -/
theorem c9_serialize_clock_cex :
    generateGPX wdata "t" "2024-01-01T00:00:00.000Z" ≠
      generateGPX wdata "t" "2025-06-15T12:00:00.000Z" := by
  intro h
  have hm := congrArg SerializedGPX.metadataTime h
  simp only [generateGPX] at hm
  exact absurd hm (by decide)

/-- Amended C9: `parse`, `toGeoJSONCoordinates` and `getElevationData` are
pure functions of their arguments (plain functions of the model, with no
state input), while `generateGPX` additionally reads the ambient clock —
but only into the metadata `time` element: the emitted document content is
clock-independent, and the metadata time is exactly the clock reading. -/
theorem c9_clock_only_in_metadata (g : GPXData) (t n1 n2 : String) :
    (generateGPX g t n1).doc = (generateGPX g t n2).doc ∧
    (generateGPX g t n1).metadataTime = n1 ∧
    toGeoJSONCoordinates g = g.points.map (fun p => (p.lon, p.lat)) ∧
    getElevationData g = g.points.map (fun p => jsOrZero p.ele) :=
  ⟨rfl, rfl, rfl, rfl⟩

end C9

section Elevation

open GPXParser

theorem eleQ_none {p : GPXTrackPoint} (h : p.ele = none) : eleQ p = none := by
  unfold eleQ
  rw [h]

theorem eleQ_fin {p : GPXTrackPoint} {x : ℚ} (h : p.ele = some (.finite x)) :
    eleQ p = some x := by
  unfold eleQ
  rw [h]

theorem jsOrZero_eleFin (p : GPXTrackPoint) (h : eleFinOk p = true) :
    jsOrZero p.ele = .finite (eleRef p) := by
  unfold eleFinOk at h
  unfold jsOrZero eleRef eleQ
  cases hp : p.ele with
  | none => rfl
  | some v =>
    rw [hp] at h
    cases v with
    | finite q =>
      by_cases hq : q = 0
      · subst hq
        simp [jsTruthy]
      · simp [jsTruthy, hq]
    | nan => cases h
    | inf => cases h
    | neginf => cases h

theorem eleBridge (rest : List GPXTrackPoint) (prev : GPXTrackPoint) (d : JsR)
    (g l ref : ℚ) (h : ∀ p ∈ rest, eleFinOk p = true) :
    (((prev :: rest).zip rest).foldl statsStep
        ⟨d, .finite g, .finite l, .finite ref⟩).elevationGain =
      .finite (g + specGain ref (rest.map eleQ)) ∧
    (((prev :: rest).zip rest).foldl statsStep
        ⟨d, .finite g, .finite l, .finite ref⟩).elevationLoss =
      .finite (l + specLoss ref (rest.map eleQ)) := by
  induction rest generalizing prev d g l ref with
  | nil => simp [specGain, specLoss]
  | cons q t ih =>
    rw [List.zip_cons_cons, List.foldl_cons]
    have hq : eleFinOk q = true := h q (by simp)
    have ht : ∀ p ∈ t, eleFinOk p = true := fun p hp => h p (by simp [hp])
    rw [List.map_cons]
    cases hqe : q.ele with
    | none =>
      rw [statsStep_ele_none _ _ _ hqe]
      dsimp only
      rw [eleQ_none hqe]
      simpa [specGain, specLoss] using ih q (jrAdd d (pointDistance prev q)) g l ref ht
    | some e =>
      obtain ⟨x, rfl⟩ : ∃ x, e = JsNum.finite x := by
        unfold eleFinOk at hq
        rw [hqe] at hq
        cases e with
        | finite q => exact ⟨q, rfl⟩
        | nan => cases hq
        | inf => cases hq
        | neginf => cases hq
      rw [statsStep_ele_some _ _ _ _ hqe, eleQ_fin hqe]
      dsimp only
      have hsub : jsSub (.finite x) (.finite ref) = .finite (x - ref) := rfl
      by_cases hlt : ref < x
      · have hgt : jsGt0 (jsSub (.finite x) (.finite ref)) = true := by
          rw [hsub]
          simp [jsGt0, sub_pos, hlt]
        rw [if_pos hgt, hsub]
        have hih := ih q (jrAdd d (pointDistance prev q)) (g + (x - ref)) l x ht
        have e1 : jsAdd (.finite g) (.finite (x - ref)) = .finite (g + (x - ref)) := rfl
        rw [e1]
        refine ⟨hih.1.trans ?_, hih.2.trans ?_⟩
        · rw [specGain, if_pos hlt]
          congr 1
          ring
        · rw [specLoss, if_pos hlt]
          congr 1
          ring
      · have hgt : jsGt0 (jsSub (.finite x) (.finite ref)) = false := by
          rw [hsub]
          simp [jsGt0, sub_pos, hlt]
        rw [if_neg (by simp [hgt]), hsub]
        have habs : jsAbs (.finite (x - ref)) = .finite (ref - x) := by
          show JsNum.finite |x - ref| = JsNum.finite (ref - x)
          rw [abs_of_nonpos (by linarith : x - ref ≤ 0), neg_sub]
        rw [habs]
        have hih := ih q (jrAdd d (pointDistance prev q)) g (l + (ref - x)) x ht
        have e1 : jsAdd (.finite l) (.finite (ref - x)) = .finite (l + (ref - x)) := rfl
        rw [e1]
        refine ⟨hih.1.trans ?_, hih.2.trans ?_⟩
        · rw [specGain, if_neg hlt]
          congr 1
          ring
        · rw [specLoss, if_neg hlt]
          congr 1
          ring

theorem statsAccum_gain_loss (p0 : GPXTrackPoint) (rest : List GPXTrackPoint)
    (h : ∀ p ∈ (p0 :: rest), eleFinOk p = true) :
    (statsAccum (p0 :: rest)).elevationGain =
      .finite (specGain (eleRef p0) (rest.map eleQ)) ∧
    (statsAccum (p0 :: rest)).elevationLoss =
      .finite (specLoss (eleRef p0) (rest.map eleQ)) := by
  unfold statsAccum
  have hinit : initLastEle (p0 :: rest) = .finite (eleRef p0) :=
    jsOrZero_eleFin p0 (h p0 (by simp))
  rw [show (p0 :: rest).tail = rest from rfl, hinit]
  have hb := eleBridge rest p0 (some 0) 0 0 (eleRef p0)
    (fun p hp => h p (by simp [hp]))
  simpa using hb

end Elevation

section SpecElevationLemmas

theorem specGain_nonneg (ref : ℚ) (l : List (Option ℚ)) : 0 ≤ specGain ref l := by
  induction l generalizing ref with
  | nil => simp [specGain]
  | cons o t ih =>
    cases o with
    | none => simpa [specGain] using ih ref
    | some e =>
      simp only [specGain]
      have := ih e
      by_cases hlt : ref < e
      · rw [if_pos hlt]; linarith
      · rw [if_neg hlt]; linarith

theorem specLoss_nonneg (ref : ℚ) (l : List (Option ℚ)) : 0 ≤ specLoss ref l := by
  induction l generalizing ref with
  | nil => simp [specLoss]
  | cons o t ih =>
    cases o with
    | none => simpa [specLoss] using ih ref
    | some e =>
      simp only [specLoss]
      have := ih e
      by_cases hlt : ref < e
      · rw [if_pos hlt]; linarith
      · rw [if_neg hlt]; linarith

theorem spec_telescope (l : List ℚ) (ref : ℚ) :
    specGain ref (l.map some) - specLoss ref (l.map some) = l.getLastD ref - ref := by
  induction l generalizing ref with
  | nil => simp [specGain, specLoss]
  | cons e t ih =>
    rw [List.map_cons]
    simp only [specGain, specLoss, List.getLastD_cons]
    have := ih e
    by_cases hlt : ref < e
    · rw [if_pos hlt, if_pos hlt]; linarith
    · rw [if_neg hlt, if_neg hlt]; linarith

theorem getLastD_map {α β : Type} (f : α → β) (l : List α) (d : α) :
    (l.map f).getLastD (f d) = f (l.getLastD d) := by
  induction l generalizing d with
  | nil => rfl
  | cons a t ih => rw [List.map_cons, List.getLastD_cons, List.getLastD_cons, ih]

theorem eleFinOk_of_known (p : GPXTrackPoint) (h : eleKnownFin p = true) :
    eleFinOk p = true := by
  unfold eleKnownFin at h
  unfold eleFinOk
  cases hp : p.ele with
  | none => rfl
  | some v =>
    rw [hp] at h
    cases v with
    | finite q => rfl
    | nan => cases h
    | inf => cases h
    | neginf => cases h

theorem eleQ_of_known (p : GPXTrackPoint) (h : eleKnownFin p = true) :
    eleQ p = some (eleRef p) := by
  unfold eleKnownFin at h
  cases hp : p.ele with
  | none => rw [hp] at h; cases h
  | some v =>
    rw [hp] at h
    cases v with
    | finite q =>
      have h1 : eleQ p = some q := eleQ_fin hp
      rw [h1]
      unfold eleRef
      rw [h1]
      rfl
    | nan => cases h
    | inf => cases h
    | neginf => cases h

theorem map_eleQ_known (rest : List GPXTrackPoint)
    (h : ∀ p ∈ rest, eleKnownFin p = true) :
    rest.map eleQ = (rest.map eleRef).map some := by
  induction rest with
  | nil => rfl
  | cons p t ih =>
    rw [List.map_cons, List.map_cons, List.map_cons,
      eleQ_of_known p (h p (by simp)), ih (fun x hx => h x (by simp [hx]))]

end SpecElevationLemmas

section C3C10

open GPXParser

/-- A sample track point at the origin carrying elevation `q`. -/
def pEle (q : ℚ) : GPXTrackPoint := ⟨.finite 0, .finite 0, some (.finite q), none⟩

/-- A two-point sequence whose first point has no elevation. -/
def c3pts : List GPXTrackPoint := [⟨.finite 0, .finite 0, none, none⟩, pEle 100]

/-- Counterexample to C3 as stated: in `c3pts` the second point (elevation
100) has no preceding point with known elevation, so under the claim the
delta should contribute nothing (the claim-side pairwise gain over the
known-elevation subsequence is 0); but the source initialises the
previous-elevation reference to `points[0].ele || 0`, i.e. to 0 when the
first elevation is unknown, and reports an elevation gain of 100. -/
theorem c3_unknown_first_cex :
    (calculateStats c3pts).elevationGain = .finite 100 ∧
    claimGain (c3pts.filterMap eleQ) = 0 := by
  constructor
  · have hb := statsAccum_gain_loss ⟨.finite 0, .finite 0, none, none⟩ [pEle 100] (by decide)
    have hv : specGain (eleRef ⟨.finite 0, .finite 0, none, none⟩) ([pEle 100].map eleQ)
        = 100 := by
      norm_num [specGain, eleQ, eleRef, pEle]
    show jsRound ((statsAccum (⟨.finite 0, .finite 0, none, none⟩ ::
      [pEle 100])).elevationGain) = .finite 100
    rw [hb.1, hv]
    show JsNum.finite ((round (100 : ℚ) : ℤ) : ℚ) = .finite 100
    simp
  · show claimGain ([(⟨.finite 0, .finite 0, none, none⟩ : GPXTrackPoint),
      pEle 100].filterMap eleQ) = 0
    norm_num [claimGain, eleQ, pEle]

/-- Amended C3: elevation gain (resp. loss) is the nearest-integer rounding
of the accumulated positive (resp. absolute negative) deltas between each
finite known elevation and the carried previous-known-elevation reference,
where the reference is initialised to the first point's elevation if known
and to 0 otherwise (so an unknown first elevation makes the first known
elevation count relative to 0), and an unknown elevation neither
contributes nor resets the reference.  This holds for sequences whose
elevations are all absent-or-finite (a stored NaN elevation would poison
the accumulators instead).  For the all-known sequence `[50, 55, 60, 58]`
the result is gain = 10 and loss = 2. -/
theorem c3_elevation_carry (p0 : GPXTrackPoint) (rest : List GPXTrackPoint)
    (h : ∀ p ∈ (p0 :: rest), eleFinOk p = true) :
    (calculateStats (p0 :: rest)).elevationGain =
      .finite ((round (specGain (eleRef p0) (rest.map eleQ)) : ℤ) : ℚ) ∧
    (calculateStats (p0 :: rest)).elevationLoss =
      .finite ((round (specLoss (eleRef p0) (rest.map eleQ)) : ℤ) : ℚ) ∧
    (calculateStats [pEle 50, pEle 55, pEle 60, pEle 58]).elevationGain = .finite 10 ∧
    (calculateStats [pEle 50, pEle 55, pEle 60, pEle 58]).elevationLoss = .finite 2 := by
  have hb := statsAccum_gain_loss p0 rest h
  have h50 := statsAccum_gain_loss (pEle 50) [pEle 55, pEle 60, pEle 58] (by decide)
  refine ⟨?_, ?_, ?_, ?_⟩
  · show jsRound ((statsAccum (p0 :: rest)).elevationGain) = _
    rw [hb.1]
    rfl
  · show jsRound ((statsAccum (p0 :: rest)).elevationLoss) = _
    rw [hb.2]
    rfl
  · show jsRound ((statsAccum (pEle 50 :: [pEle 55, pEle 60, pEle 58])).elevationGain) =
      .finite 10
    rw [h50.1, show specGain (eleRef (pEle 50)) ([pEle 55, pEle 60, pEle 58].map eleQ) = 10
      from by norm_num [specGain, eleQ, eleRef, pEle]]
    show JsNum.finite ((round (10 : ℚ) : ℤ) : ℚ) = .finite 10
    simp
  · show jsRound ((statsAccum (pEle 50 :: [pEle 55, pEle 60, pEle 58])).elevationLoss) =
      .finite 2
    rw [h50.2, show specLoss (eleRef (pEle 50)) ([pEle 55, pEle 60, pEle 58].map eleQ) = 2
      from by norm_num [specLoss, eleQ, eleRef, pEle]]
    show JsNum.finite ((round (2 : ℚ) : ℤ) : ℚ) = .finite 2
    simp

/-- Witness for the amended C3 at a concrete sequence with a missing middle
elevation: `[50, unknown, 60]` gives gain 10, loss 0 — the unknown point is
skipped and does not reset the reference. -/
theorem c3_elevation_carry_witness :
    (∀ p ∈ (pEle 50 :: [⟨.finite 0, .finite 0, none, none⟩, pEle 60]), eleFinOk p = true) ∧
    (calculateStats (pEle 50 :: [⟨.finite 0, .finite 0, none, none⟩, pEle 60])).elevationGain =
      .finite ((round (specGain (eleRef (pEle 50))
        ([(⟨.finite 0, .finite 0, none, none⟩ : GPXTrackPoint), pEle 60].map eleQ)) : ℤ) : ℚ) ∧
    specGain (eleRef (pEle 50))
      ([(⟨.finite 0, .finite 0, none, none⟩ : GPXTrackPoint), pEle 60].map eleQ) = 10 :=
  ⟨by decide,
   (c3_elevation_carry (pEle 50) [⟨.finite 0, .finite 0, none, none⟩, pEle 60] (by decide)).1,
   by norm_num [specGain, eleQ, eleRef, pEle]⟩

/-- C10 (implicit): for an all-known-elevation sequence the pre-rounding
accumulators satisfy: gain and loss are finite and non-negative, and
gain − loss telescopes to (last elevation − first elevation).  Since this
holds for every all-known sequence it holds in particular for every prefix
of the loop, i.e. throughout the walk. -/
theorem c10_gain_loss_invariant (p0 : GPXTrackPoint) (rest : List GPXTrackPoint)
    (h : ∀ p ∈ (p0 :: rest), eleKnownFin p = true) :
    (statsAccum (p0 :: rest)).elevationGain =
      .finite (specGain (eleRef p0) (rest.map eleQ)) ∧
    (statsAccum (p0 :: rest)).elevationLoss =
      .finite (specLoss (eleRef p0) (rest.map eleQ)) ∧
    0 ≤ specGain (eleRef p0) (rest.map eleQ) ∧
    0 ≤ specLoss (eleRef p0) (rest.map eleQ) ∧
    specGain (eleRef p0) (rest.map eleQ) - specLoss (eleRef p0) (rest.map eleQ) =
      eleRef (rest.getLastD p0) - eleRef p0 := by
  have hfin : ∀ p ∈ (p0 :: rest), eleFinOk p = true :=
    fun p hp => eleFinOk_of_known p (h p hp)
  have hb := statsAccum_gain_loss p0 rest hfin
  have hmap : rest.map eleQ = (rest.map eleRef).map some :=
    map_eleQ_known rest (fun p hp => h p (by simp [hp]))
  refine ⟨hb.1, hb.2, specGain_nonneg _ _, specLoss_nonneg _ _, ?_⟩
  rw [hmap, spec_telescope, getLastD_map eleRef rest p0]

/-- Witness for C10 on the all-known sequence `[50, 55, 60, 58]`:
gain 10, loss 2, and 10 − 2 = 58 − 50. -/
theorem c10_gain_loss_invariant_witness :
    (∀ p ∈ (pEle 50 :: [pEle 55, pEle 60, pEle 58]), eleKnownFin p = true) ∧
    (statsAccum (pEle 50 :: [pEle 55, pEle 60, pEle 58])).elevationGain = .finite 10 ∧
    (statsAccum (pEle 50 :: [pEle 55, pEle 60, pEle 58])).elevationLoss = .finite 2 ∧
    specGain (eleRef (pEle 50)) ([pEle 55, pEle 60, pEle 58].map eleQ) -
      specLoss (eleRef (pEle 50)) ([pEle 55, pEle 60, pEle 58].map eleQ) =
      eleRef ([pEle 55, pEle 60, pEle 58].getLastD (pEle 50)) - eleRef (pEle 50) := by
  have h := c10_gain_loss_invariant (pEle 50) [pEle 55, pEle 60, pEle 58] (by decide)
  refine ⟨by decide, ?_, ?_, h.2.2.2.2⟩
  · rw [h.1]
    norm_num [specGain, eleQ, eleRef, pEle]
  · rw [h.2.1]
    norm_num [specLoss, eleQ, eleRef, pEle]

end C3C10

section C4

open GPXParser

theorem parsePoint_inv {e : PtElem} {p : GPXTrackPoint} (h : parsePoint e = some p) :
    jsIsNaN p.lat = false ∧ jsIsNaN p.lon = false ∧ p.time ≠ some "" := by
  unfold parsePoint at h
  by_cases hn : (jsIsNaN (attrValue e.lat) || jsIsNaN (attrValue e.lon)) = true
  · rw [if_pos hn] at h; cases h
  rw [if_neg hn] at h
  simp only [Option.some.injEq] at h
  subst h
  simp only [Bool.or_eq_true, not_or, Bool.not_eq_true] at hn
  refine ⟨hn.1, hn.2, ?_⟩
  cases ht : e.time with
  | none => simp
  | some s =>
    by_cases hs : s = ""
    · simp [hs]
    · simp [hs]

theorem parsePoint_serializePt (p : GPXTrackPoint) (h1 : jsIsNaN p.lat = false)
    (h2 : jsIsNaN p.lon = false) (h3 : p.time ≠ some "") :
    parsePoint (serializePt p) = some p := by
  obtain ⟨plat, plon, pele, ptime⟩ := p
  unfold serializePt parsePoint
  dsimp only at h1 h2 h3 ⊢
  rw [show attrValue (some (.nonempty plat)) = plat from rfl,
    show attrValue (some (.nonempty plon)) = plon from rfl, if_neg (by simp [h1, h2])]
  congr 1
  simp only [GPXTrackPoint.mk.injEq, true_and]
  constructor
  · cases pele <;> rfl
  · cases ptime with
    | none => rfl
    | some s =>
      have hs : s ≠ "" := fun h0 => h3 (by rw [h0])
      simp [hs]

theorem filterMap_serialize (l : List GPXTrackPoint)
    (h : ∀ p ∈ l, parsePoint (serializePt p) = some p) :
    (l.map serializePt).filterMap parsePoint = l := by
  induction l with
  | nil => rfl
  | cons p t ih =>
    rw [List.map_cons, List.filterMap_cons, h p (by simp)]
    rw [ih (fun x hx => h x (by simp [hx]))]

theorem parse_points_inv {doc : XmlDoc} {g : GPXData} (h : parse doc = .ok g) :
    ∀ p ∈ g.points, jsIsNaN p.lat = false ∧ jsIsNaN p.lon = false ∧ p.time ≠ some "" := by
  obtain ⟨-, -, hpts, -⟩ := parse_ok_elim h
  rw [hpts]
  intro p hp
  obtain ⟨e, -, he⟩ := List.mem_filterMap.1 hp
  exact parsePoint_inv he

/-- The point's timestamp, if emitted, is markup-safe raw text. -/
def pointTimeSafe (p : GPXTrackPoint) : Bool :=
  match p.time with
  | some s => verbatimText s
  | none => true

theorem verbatimText_not_illFormed {s : String} (h : verbatimText s = true) :
    certainlyIllFormedText s = false := by
  unfold verbatimText at h
  unfold certainlyIllFormedText
  rw [List.all_eq_true] at h
  have h1 : (s.data.any fun c => !xmlChar c) = false := by
    rw [List.any_eq_false]
    intro c hc
    have hcv := h c hc
    simp only [Bool.and_eq_true, Bool.not_eq_true', decide_eq_true_eq,
      decide_eq_false_iff_not] at hcv
    have hx : xmlChar c = true := by
      unfold xmlChar
      simp only [Bool.or_eq_true, Bool.and_eq_true, decide_eq_true_eq]
      omega
    simp [hx]
  have h2 : (s.data.any fun c => decide (c = '&')) = false := by
    rw [List.any_eq_false]
    intro c hc
    have hcv := h c hc
    simp only [Bool.and_eq_true, Bool.not_eq_true', decide_eq_true_eq,
      decide_eq_false_iff_not] at hcv
    simpa using hcv.1.1.2
  rw [h1, h2]
  rfl

theorem generateGPX_no_error (g : GPXData) (title now : String)
    (htitle : titleIllFormed title = false)
    (htime : ∀ p ∈ g.points, pointTimeSafe p = true) :
    (generateGPX g title now).doc.parserError = false := by
  show (titleIllFormed title || g.points.any emittedPointIllFormed) = false
  rw [htitle, Bool.false_or, List.any_eq_false]
  intro p hp
  have hs := htime p hp
  unfold pointTimeSafe at hs
  unfold emittedPointIllFormed
  cases hpt : p.time with
  | none => simp
  | some s =>
    rw [hpt] at hs
    by_cases he : s = ""
    · simp [he]
    · simp [he, verbatimText_not_illFormed hs]

/-- Amended C4: for every document `parse` accepts, every clock reading,
every title made of XML-permitted characters, and a parsed track all of
whose stored timestamps are markup-safe raw text (conservatively: printable
ASCII without ampersand, left angle bracket or right square bracket),
reparsing the serialized track succeeds and yields exactly the same point
sequence — the same latitude, longitude, elevation and timestamp values in
the same order.  The timestamp restriction is forced by the source:
`generateGPX` splices `point.time` into the document unescaped (only the
title goes through `escapeXml`), so a bare ampersand in a timestamp makes
the emitted document ill-formed — see the counterexample. -/
theorem c4_roundtrip (doc : XmlDoc) (g : GPXData) (title now : String)
    (h : parse doc = .ok g)
    (htitle : titleIllFormed title = false)
    (htime : ∀ p ∈ g.points, pointTimeSafe p = true) :
    (parse (generateGPX g title now).doc).map (fun d => d.points) = .ok g.points := by
  have hinv := parse_points_inv h
  have hlen : 2 ≤ g.points.length := (parse_ok_elim h).2.2.2
  have hne : g.points ≠ [] := by
    intro h0
    rw [h0] at hlen
    simp at hlen
  have hmapne : g.points.map serializePt ≠ [] := by simp [hne]
  have hsel : selectTier (generateGPX g title now).doc = g.points.map serializePt := by
    unfold generateGPX selectTier
    dsimp only
    rw [if_pos hmapne]
  have hfm : (g.points.map serializePt).filterMap parsePoint = g.points :=
    filterMap_serialize _ (fun p hp =>
      parsePoint_serializePt p (hinv p hp).1 (hinv p hp).2.1 (hinv p hp).2.2)
  have hok := @parse_ok_of (generateGPX g title now).doc
    (generateGPX_no_error g title now htitle htime)
    (by rw [hsel]; exact hmapne)
    (by rw [hsel, hfm]; omega)
  rw [hok]
  show Except.ok ((selectTier (generateGPX g title now).doc).filterMap parsePoint) =
    Except.ok g.points
  rw [hsel, hfm]

/-- Witness for the amended C4 at the concrete document `wdoc`. -/
theorem c4_roundtrip_witness :
    parse wdoc = .ok wdata ∧
    titleIllFormed "any title" = false ∧
    (∀ p ∈ wdata.points, pointTimeSafe p = true) ∧
    (parse (generateGPX wdata "any title" "2024-01-01T00:00:00.000Z").doc).map
      (fun d => d.points) = .ok wdata.points :=
  ⟨parse_wdoc, by decide, by decide,
   c4_roundtrip wdoc wdata "any title" "2024-01-01T00:00:00.000Z" parse_wdoc (by decide)
     (by decide)⟩

/-- First point of the C4 counterexample: at the origin, carrying the
timestamp "2024 & later" — a bare ampersand with no semicolon after it. -/
def c4pt : GPXTrackPoint := ⟨.finite 0, .finite 0, none, some "2024 & later"⟩

/-- The C4 counterexample document: accepted by `parse`, first `trkpt`
carrying a `time` child whose text contains a bare ampersand. -/
def c4doc : XmlDoc :=
  ⟨false, [⟨some (.nonempty (.finite 0)), some (.nonempty (.finite 0)), none,
    some "2024 & later"⟩, e00], [], [], none⟩

/-- The parse result of `c4doc`. -/
def c4data : GPXData := ⟨none, [c4pt, p00], some 0, .finite 0, .finite 0, some 0⟩

theorem pointDistance_c4 : pointDistance c4pt p00 = some 0 := by
  show calculateDistance ((0 : ℚ) : ℝ) ((0 : ℚ) : ℝ) ((0 : ℚ) : ℝ) ((0 : ℚ) : ℝ) = some 0
  exact calculateDistance_same _ _

theorem statsAccum_c4 :
    statsAccum [c4pt, p00] =
      ⟨some ((0 : ℝ) + 0), .finite 0, .finite 0, .finite 0⟩ := by
  unfold statsAccum
  rw [show [c4pt, p00].zip [c4pt, p00].tail = [(c4pt, p00)] from rfl, List.foldl_cons,
    List.foldl_nil, statsStep_ele_none _ c4pt p00 rfl, pointDistance_c4]
  rfl

theorem calculateStats_c4 :
    calculateStats [c4pt, p00] = ⟨some 0, .finite 0, .finite 0, some 0⟩ := by
  unfold calculateStats
  rw [statsAccum_c4]
  simp only [Stats.mk.injEq]
  refine ⟨?_, by simp [jsRound], by simp [jsRound], ?_⟩
  · unfold jrRound2
    simp only [Option.map]
    norm_num
  · unfold jrRound jrMulC jrDivC
    simp only [Option.map]
    norm_num

theorem parse_c4doc : parse c4doc = .ok c4data := by
  rw [parse_ok_of rfl (by decide) (by decide)]
  have hpts : (selectTier c4doc).filterMap parsePoint = [c4pt, p00] := rfl
  simp only [Except.ok.injEq, GPXData.mk.injEq, hpts, calculateStats_c4]
  rfl

/-- Counterexample to C4 as stated: `parse` accepts `c4doc`, whose first
point's timestamp is "2024 & later".  The source emits that timestamp
unescaped (`escapeXml` is applied only to the title), and its bare
ampersand — with no semicolon anywhere after it — can never close an
entity reference, so the serialized document is ill-formed markup and the
round-trip fails with `MalformedDocument` instead of reproducing the point
sequence. -/
theorem c4_unescaped_time_cex :
    parse c4doc = .ok c4data ∧
    parse (generateGPX c4data "t" "2024-01-01T00:00:00.000Z").doc =
      .error .malformedDocument := by
  refine ⟨parse_c4doc, ?_⟩
  have hpe : (generateGPX c4data "t" "2024-01-01T00:00:00.000Z").doc.parserError = true := by
    decide
  unfold parse
  rw [hpe, if_pos rfl]

end C4

section Distance

open GPXParser

theorem hav_T_bounds (x y c : ℝ) (hc1 : -1 ≤ c) (hc2 : c ≤ 1) :
    -1 ≤ Real.sin x * Real.sin y + Real.cos x * Real.cos y * c ∧
    Real.sin x * Real.sin y + Real.cos x * Real.cos y * c ≤ 1 := by
  have h1 := Real.sin_sq_add_cos_sq x
  have h2 := Real.sin_sq_add_cos_sq y
  rcases le_or_lt 0 (Real.cos x * Real.cos y) with hcc | hcc
  · constructor
    · nlinarith [sq_nonneg (Real.sin x + Real.sin y), sq_nonneg (Real.cos x - Real.cos y),
        mul_le_mul_of_nonneg_left hc2 hcc]
    · nlinarith [sq_nonneg (Real.sin x - Real.sin y), sq_nonneg (Real.cos x - Real.cos y),
        mul_le_mul_of_nonneg_left hc2 hcc]
  · constructor
    · nlinarith [sq_nonneg (Real.sin x + Real.sin y), sq_nonneg (Real.cos x + Real.cos y)]
    · nlinarith [sq_nonneg (Real.sin x - Real.sin y), sq_nonneg (Real.cos x + Real.cos y)]

theorem hav_term_mem (x y u v : ℝ) :
    0 ≤ Real.sin ((y - x) / 2) * Real.sin ((y - x) / 2) +
      Real.cos x * Real.cos y * Real.sin ((v - u) / 2) * Real.sin ((v - u) / 2) ∧
    Real.sin ((y - x) / 2) * Real.sin ((y - x) / 2) +
      Real.cos x * Real.cos y * Real.sin ((v - u) / 2) * Real.sin ((v - u) / 2) ≤ 1 := by
  have hs1 : Real.sin ((y - x) / 2) * Real.sin ((y - x) / 2) = (1 - Real.cos (y - x)) / 2 := by
    have h2 : 2 * ((y - x) / 2) = y - x := by ring
    have := Real.sin_sq_eq_half_sub ((y - x) / 2)
    rw [h2] at this
    nlinarith [this]
  have hs2 : Real.sin ((v - u) / 2) * Real.sin ((v - u) / 2) = (1 - Real.cos (v - u)) / 2 := by
    have h2 : 2 * ((v - u) / 2) = v - u := by ring
    have := Real.sin_sq_eq_half_sub ((v - u) / 2)
    rw [h2] at this
    nlinarith [this]
  have hcos : Real.cos (y - x) = Real.cos y * Real.cos x + Real.sin y * Real.sin x :=
    Real.cos_sub y x
  have hT := hav_T_bounds x y (Real.cos (v - u)) (Real.neg_one_le_cos (v - u))
    (Real.cos_le_one (v - u))
  have key : Real.sin ((y - x) / 2) * Real.sin ((y - x) / 2) +
      Real.cos x * Real.cos y * Real.sin ((v - u) / 2) * Real.sin ((v - u) / 2) =
      (1 - (Real.sin x * Real.sin y + Real.cos x * Real.cos y * Real.cos (v - u))) / 2 := by
    have hassoc : Real.cos x * Real.cos y * Real.sin ((v - u) / 2) * Real.sin ((v - u) / 2) =
        Real.cos x * Real.cos y * (Real.sin ((v - u) / 2) * Real.sin ((v - u) / 2)) := by
      ring
    rw [hassoc, hs1, hs2, hcos]
    ring
  rw [key]
  constructor
  · linarith [hT.2]
  · linarith [hT.1]

theorem haversineA_mem (lat1 lon1 lat2 lon2 : ℝ) :
    0 ≤ haversineA lat1 lon1 lat2 lon2 ∧ haversineA lat1 lon1 lat2 lon2 ≤ 1 := by
  unfold haversineA toRadians
  have e1 : (lat2 - lat1) * (Real.pi / 180) =
      lat2 * (Real.pi / 180) - lat1 * (Real.pi / 180) := by ring
  have e2 : (lon2 - lon1) * (Real.pi / 180) =
      lon2 * (Real.pi / 180) - lon1 * (Real.pi / 180) := by ring
  rw [e1, e2]
  exact hav_term_mem (lat1 * (Real.pi / 180)) (lat2 * (Real.pi / 180))
    (lon1 * (Real.pi / 180)) (lon2 * (Real.pi / 180))

theorem jsAtan2_nonneg {y x : ℝ} (hy : 0 ≤ y) : 0 ≤ jsAtan2 y x := by
  unfold jsAtan2
  split_ifs with h1 h2 h3 h4 <;>
    first
      | (rw [← Real.arctan_zero]
         exact Real.arctan_strictMono.monotone (div_nonneg hy h1.le))
      | linarith [Real.neg_pi_div_two_lt_arctan (y / x), Real.pi_pos]

theorem calculateDistance_mem (lat1 lon1 lat2 lon2 : ℝ) :
    ∃ r : ℝ, calculateDistance lat1 lon1 lat2 lon2 = some r ∧ 0 ≤ r := by
  obtain ⟨h0, h1⟩ := haversineA_mem lat1 lon1 lat2 lon2
  unfold calculateDistance
  show ∃ r : ℝ, (match jsSqrt (haversineA lat1 lon1 lat2 lon2),
      jsSqrt (1 - haversineA lat1 lon1 lat2 lon2) with
    | some sa, some sb => some ((6371 : ℝ) * (2 * jsAtan2 sa sb))
    | _, _ => none) = some r ∧ 0 ≤ r
  have hs1 : jsSqrt (haversineA lat1 lon1 lat2 lon2) =
      some (Real.sqrt (haversineA lat1 lon1 lat2 lon2)) := by
    unfold jsSqrt
    rw [if_neg (not_lt.2 h0)]
  have hs2 : jsSqrt (1 - haversineA lat1 lon1 lat2 lon2) =
      some (Real.sqrt (1 - haversineA lat1 lon1 lat2 lon2)) := by
    unfold jsSqrt
    rw [if_neg (not_lt.2 (by linarith))]
  rw [hs1, hs2]
  refine ⟨_, rfl, ?_⟩
  have ha := @jsAtan2_nonneg (Real.sqrt (haversineA lat1 lon1 lat2 lon2))
    (Real.sqrt (1 - haversineA lat1 lon1 lat2 lon2))
    (Real.sqrt_nonneg (haversineA lat1 lon1 lat2 lon2))
  positivity

theorem coordFin_elim {p : GPXTrackPoint} (h : coordFin p = true) :
    ∃ a b : ℚ, p.lat = .finite a ∧ p.lon = .finite b := by
  unfold coordFin at h
  cases hl : p.lat with
  | finite a =>
    cases ho : p.lon with
    | finite b => exact ⟨a, b, rfl, rfl⟩
    | nan => rw [hl, ho] at h; cases h
    | inf => rw [hl, ho] at h; cases h
    | neginf => rw [hl, ho] at h; cases h
  | nan => rw [hl] at h; cases h
  | inf => rw [hl] at h; cases h
  | neginf => rw [hl] at h; cases h

theorem pointDistance_mem {p q : GPXTrackPoint} (hp : coordFin p = true)
    (hq : coordFin q = true) :
    ∃ r : ℝ, pointDistance p q = some r ∧ 0 ≤ r := by
  obtain ⟨a, b, ha, hb⟩ := coordFin_elim hp
  obtain ⟨c, d, hc, hd⟩ := coordFin_elim hq
  have he : pointDistance p q = calculateDistance (a : ℝ) (b : ℝ) (c : ℝ) (d : ℝ) := by
    unfold pointDistance
    rw [ha, hb, hc, hd]
  rw [he]
  exact calculateDistance_mem _ _ _ _

theorem statsStep_dist (s : StatsState) (p q : GPXTrackPoint) :
    (statsStep s (p, q)).totalDistance = jrAdd s.totalDistance (pointDistance p q) := by
  cases hqe : q.ele with
  | none => rw [statsStep_ele_none s p q hqe]
  | some e =>
    rw [statsStep_ele_some s p q e hqe]
    by_cases hgt : jsGt0 (jsSub e s.lastEle) = true
    · rw [if_pos hgt]
    · rw [if_neg hgt]

theorem foldl_dist_mem (pairs : List (GPXTrackPoint × GPXTrackPoint)) :
    ∀ (s : StatsState) (d : ℝ), s.totalDistance = some d →
    (∀ pc ∈ pairs, coordFin pc.1 = true ∧ coordFin pc.2 = true) →
    ∃ D : ℝ, (pairs.foldl statsStep s).totalDistance = some D ∧ d ≤ D := by
  induction pairs with
  | nil => exact fun s d hd _ => ⟨d, hd, le_refl d⟩
  | cons pc t ih =>
    obtain ⟨pa, pb⟩ := pc
    intro s d hd hall
    obtain ⟨r, hr, hr0⟩ := pointDistance_mem (hall (pa, pb) (by simp)).1
      (hall (pa, pb) (by simp)).2
    have hstep : (statsStep s (pa, pb)).totalDistance = some (d + r) := by
      rw [statsStep_dist, hd, hr]
      rfl
    obtain ⟨D, hD, hdD⟩ := ih (statsStep s (pa, pb)) (d + r) hstep
      (fun x hx => hall x (by simp [hx]))
    exact ⟨D, by rwa [List.foldl_cons], by linarith⟩

theorem zip_pairs_coordFin (pts : List GPXTrackPoint)
    (h : ∀ p ∈ pts, coordFin p = true) :
    ∀ pc ∈ pts.zip pts.tail, coordFin pc.1 = true ∧ coordFin pc.2 = true := by
  intro pc hpc
  have h1 := List.of_mem_zip hpc
  exact ⟨h pc.1 h1.1, h pc.2 (List.mem_of_mem_tail h1.2)⟩

theorem statsAccum_dist_nonneg (pts : List GPXTrackPoint)
    (h : ∀ p ∈ pts, coordFin p = true) :
    ∃ D : ℝ, (statsAccum pts).totalDistance = some D ∧ 0 ≤ D := by
  unfold statsAccum
  exact foldl_dist_mem _ _ 0 rfl (zip_pairs_coordFin pts h)

theorem zip_pairs_append (l : List GPXTrackPoint) (q : GPXTrackPoint) (hne : l ≠ []) :
    (l ++ [q]).zip (l ++ [q]).tail = l.zip l.tail ++ [(l.getLast hne, q)] := by
  induction l with
  | nil => cases hne rfl
  | cons a t ih =>
    cases t with
    | nil => rfl
    | cons b t2 =>
      have ih2 := ih (by simp)
      simp only [List.cons_append, List.tail_cons, List.zip_cons_cons] at ih2 ⊢
      rw [ih2]
      simp [List.getLast_cons]

theorem initLastEle_append (l : List GPXTrackPoint) (q : GPXTrackPoint) (hne : l ≠ []) :
    initLastEle (l ++ [q]) = initLastEle l := by
  cases l with
  | nil => cases hne rfl
  | cons a t => rfl

/-- C7: with two or more points, all with finite coordinates, the raw
accumulated haversine distance is a well-defined non-negative real, the
2-decimal-rounded `distance` field is non-negative, and appending a further
finite-coordinate point never decreases either the raw total or the rounded
field. -/
theorem c7_distance_monotone (p0 p1 : GPXTrackPoint) (rest : List GPXTrackPoint)
    (q : GPXTrackPoint)
    (h : ∀ p ∈ (p0 :: p1 :: rest) ++ [q], coordFin p = true) :
    ∃ d d2 : ℝ,
      (statsAccum (p0 :: p1 :: rest)).totalDistance = some d ∧
      (statsAccum ((p0 :: p1 :: rest) ++ [q])).totalDistance = some d2 ∧
      0 ≤ d ∧ d ≤ d2 ∧
      (calculateStats (p0 :: p1 :: rest)).distance =
        some (((round (d * 100) : ℤ) : ℝ) / 100) ∧
      (calculateStats ((p0 :: p1 :: rest) ++ [q])).distance =
        some (((round (d2 * 100) : ℤ) : ℝ) / 100) ∧
      0 ≤ (((round (d * 100) : ℤ) : ℝ) / 100) ∧
      (((round (d * 100) : ℤ) : ℝ) / 100) ≤ (((round (d2 * 100) : ℤ) : ℝ) / 100) := by
  have hmem : ∀ p ∈ (p0 :: p1 :: rest), coordFin p = true := by
    intro p hp
    refine h p ?_
    simp only [List.mem_cons, List.mem_append] at hp ⊢
    tauto
  obtain ⟨d, hd, hd0⟩ := statsAccum_dist_nonneg (p0 :: p1 :: rest) hmem
  have hlne : (p0 :: p1 :: rest) ≠ [] := by simp
  obtain ⟨r, hr, hr0⟩ := pointDistance_mem
    (hmem _ (List.getLast_mem hlne)) (h q (by simp))
  have hacc2 : (statsAccum ((p0 :: p1 :: rest) ++ [q])).totalDistance = some (d + r) := by
    unfold statsAccum at hd ⊢
    rw [initLastEle_append _ q hlne, zip_pairs_append _ q hlne, List.foldl_append,
      List.foldl_cons, List.foldl_nil, statsStep_dist, hd, hr]
    rfl
  have hrd0 : (0 : ℤ) ≤ round (d * 100) := by
    rw [round_eq]
    exact Int.floor_nonneg.2 (by linarith)
  have hrdle : round (d * 100) ≤ round ((d + r) * 100) := by
    rw [round_eq, round_eq]
    exact Int.floor_le_floor (by linarith)
  have hc0 : (0 : ℝ) ≤ ((round (d * 100) : ℤ) : ℝ) := by exact_mod_cast hrd0
  have hcle : ((round (d * 100) : ℤ) : ℝ) ≤ ((round ((d + r) * 100) : ℤ) : ℝ) := by
    exact_mod_cast hrdle
  refine ⟨d, d + r, hd, hacc2, hd0, by linarith, ?_, ?_, ?_, ?_⟩
  · show jrRound2 ((statsAccum (p0 :: p1 :: rest)).totalDistance) = _
    rw [hd]
    rfl
  · show jrRound2 ((statsAccum ((p0 :: p1 :: rest) ++ [q])).totalDistance) = _
    rw [hacc2]
    rfl
  · exact div_nonneg hc0 (by norm_num)
  · linarith

/-- Witness for C7 at three identical origin points plus an appended one. -/
theorem c7_distance_monotone_witness :
    (∀ p ∈ (p00 :: p00 :: []) ++ [p00], coordFin p = true) ∧
    (∃ d d2 : ℝ,
      (statsAccum (p00 :: p00 :: [])).totalDistance = some d ∧
      (statsAccum ((p00 :: p00 :: []) ++ [p00])).totalDistance = some d2 ∧
      0 ≤ d ∧ d ≤ d2 ∧
      (calculateStats (p00 :: p00 :: [])).distance =
        some (((round (d * 100) : ℤ) : ℝ) / 100) ∧
      (calculateStats ((p00 :: p00 :: []) ++ [p00])).distance =
        some (((round (d2 * 100) : ℤ) : ℝ) / 100) ∧
      0 ≤ (((round (d * 100) : ℤ) : ℝ) / 100) ∧
      (((round (d * 100) : ℤ) : ℝ) / 100) ≤ (((round (d2 * 100) : ℤ) : ℝ) / 100)) :=
  ⟨by decide, c7_distance_monotone p00 p00 [] p00 (by decide)⟩

end Distance

section C6

open GPXParser

theorem parse_ok_stats {doc : XmlDoc} {g : GPXData} (h : parse doc = .ok g) :
    g.estimatedTime = (calculateStats g.points).estimatedTime ∧
    g.distance = (calculateStats g.points).distance := by
  unfold parse at h
  by_cases h1 : doc.parserError = true
  · rw [if_pos h1] at h; cases h
  rw [if_neg h1] at h
  by_cases h2 : selectTier doc = []
  · rw [if_pos h2] at h; cases h
  rw [if_neg h2] at h
  by_cases h3 : ((selectTier doc).filterMap parsePoint).length < 2
  · rw [if_pos h3] at h; cases h
  rw [if_neg h3] at h
  simp only [Except.ok.injEq] at h
  subst h
  exact ⟨rfl, rfl⟩

/-- Amended C6: for every successfully parsed track, `estimatedTime` is
`Math.round(totalDistance / 30 * 60)` computed from the raw, pre-rounding
accumulated distance (with the fixed client-side constant 30 km/h), not
from the 2-decimal-rounded `distance` field. -/
theorem c6_estimated_time (doc : XmlDoc) (g : GPXData) (h : parse doc = .ok g) :
    g.estimatedTime =
      jrRound (jrMulC (jrDivC ((statsAccum g.points).totalDistance) 30) 60) := by
  rw [(parse_ok_stats h).1]
  rfl

/-- Witness for the amended C6 at the concrete document `wdoc`. -/
theorem c6_estimated_time_witness :
    parse wdoc = .ok wdata ∧
    wdata.estimatedTime =
      jrRound (jrMulC (jrDivC ((statsAccum wdata.points).totalDistance) 30) 60) :=
  ⟨parse_wdoc, c6_estimated_time wdoc wdata parse_wdoc⟩

/-- Second point of the C6 counterexample: on the equator, 0.00223 degrees
of longitude east of the origin (true haversine distance about 0.24797 km,
which the distance field rounds to 0.25 km). -/
def c6q : GPXTrackPoint := ⟨.finite 0, .finite (223/100000), none, none⟩

/-- The C6 counterexample document: two equator points 0.00223 degrees of
longitude apart. -/
def c6doc : XmlDoc :=
  ⟨false, [e00, ⟨some (.nonempty (.finite 0)), some (.nonempty (.finite (223/100000))),
    none, none⟩], [], [], none⟩

/-- The parse result of `c6doc`: the rounded distance field is 0.25 km but
the estimated time is 0 minutes (raw 2·distance ≈ 0.49593 rounds to 0). -/
noncomputable def c6data : GPXData :=
  ⟨none, [p00, c6q], some ((25 : ℝ)/100), .finite 0, .finite 0, some 0⟩

theorem calculateDistance_equator (δ : ℝ) (h1 : 0 < δ)
    (h2 : δ * (Real.pi / 180) < Real.pi / 2) :
    calculateDistance 0 0 0 δ = some (6371 * (δ * (Real.pi / 180))) := by
  have hπ := Real.pi_pos
  have hr0 : 0 < δ * (Real.pi / 180) := by positivity
  have hrhalf0 : 0 < δ * (Real.pi / 180) / 2 := by positivity
  have hrhalfπ2 : δ * (Real.pi / 180) / 2 < Real.pi / 2 := by linarith
  have hsin0 : 0 < Real.sin (δ * (Real.pi / 180) / 2) :=
    Real.sin_pos_of_pos_of_lt_pi hrhalf0 (by linarith)
  have hcos0 : 0 < Real.cos (δ * (Real.pi / 180) / 2) :=
    Real.cos_pos_of_mem_Ioo ⟨by linarith, hrhalfπ2⟩
  have hA : haversineA 0 0 0 δ =
      Real.sin (δ * (Real.pi / 180) / 2) * Real.sin (δ * (Real.pi / 180) / 2) := by
    unfold haversineA toRadians
    norm_num
  unfold calculateDistance
  rw [hA]
  show (match jsSqrt (Real.sin (δ * (Real.pi / 180) / 2) * Real.sin (δ * (Real.pi / 180) / 2)),
      jsSqrt (1 - Real.sin (δ * (Real.pi / 180) / 2) * Real.sin (δ * (Real.pi / 180) / 2)) with
    | some sa, some sb => some ((6371 : ℝ) * (2 * jsAtan2 sa sb))
    | _, _ => none) = some (6371 * (δ * (Real.pi / 180)))
  have hs1 : jsSqrt (Real.sin (δ * (Real.pi / 180) / 2) * Real.sin (δ * (Real.pi / 180) / 2)) =
      some (Real.sin (δ * (Real.pi / 180) / 2)) := by
    unfold jsSqrt
    rw [if_neg (not_lt.2 (mul_self_nonneg _)), Real.sqrt_mul_self hsin0.le]
  have hcc : (1 : ℝ) - Real.sin (δ * (Real.pi / 180) / 2) * Real.sin (δ * (Real.pi / 180) / 2) =
      Real.cos (δ * (Real.pi / 180) / 2) * Real.cos (δ * (Real.pi / 180) / 2) := by
    have hsc := Real.sin_sq_add_cos_sq (δ * (Real.pi / 180) / 2)
    linear_combination (-1 : ℝ) * hsc
  have hs2 : jsSqrt (1 - Real.sin (δ * (Real.pi / 180) / 2) *
      Real.sin (δ * (Real.pi / 180) / 2)) = some (Real.cos (δ * (Real.pi / 180) / 2)) := by
    rw [hcc]
    unfold jsSqrt
    rw [if_neg (not_lt.2 (mul_self_nonneg _)), Real.sqrt_mul_self hcos0.le]
  rw [hs1, hs2]
  show some ((6371 : ℝ) * (2 * jsAtan2 (Real.sin (δ * (Real.pi / 180) / 2))
    (Real.cos (δ * (Real.pi / 180) / 2)))) = some (6371 * (δ * (Real.pi / 180)))
  have hat : jsAtan2 (Real.sin (δ * (Real.pi / 180) / 2))
      (Real.cos (δ * (Real.pi / 180) / 2)) = δ * (Real.pi / 180) / 2 := by
    unfold jsAtan2
    rw [if_pos hcos0, ← Real.tan_eq_sin_div_cos]
    exact Real.arctan_tan (by linarith) hrhalfπ2
  rw [hat]
  congr 1
  ring

theorem pointDistance_c6 :
    pointDistance p00 c6q = some (6371 * ((223/100000 : ℝ) * (Real.pi / 180))) := by
  show calculateDistance ((0 : ℚ) : ℝ) ((0 : ℚ) : ℝ) ((0 : ℚ) : ℝ)
    (((223/100000 : ℚ)) : ℝ) = _
  rw [show ((0 : ℚ) : ℝ) = 0 from by norm_num,
    show (((223/100000 : ℚ)) : ℝ) = (223/100000 : ℝ) from by norm_num]
  exact calculateDistance_equator (223/100000) (by norm_num)
    (by linarith [Real.pi_pos])

theorem statsAccum_c6 : (statsAccum [p00, c6q]).totalDistance =
    some (0 + 6371 * ((223/100000 : ℝ) * (Real.pi / 180))) := by
  unfold statsAccum
  rw [show [p00, c6q].zip [p00, c6q].tail = [(p00, c6q)] from rfl, List.foldl_cons,
    List.foldl_nil, statsStep_dist, pointDistance_c6]
  rfl

theorem c6_round25 :
    round ((0 + 6371 * ((223/100000 : ℝ) * (Real.pi / 180))) * 100) = 25 := by
  have hπl : (3.141592 : ℝ) < Real.pi := Real.pi_gt_d6
  have hπu : Real.pi < 3.141593 := Real.pi_lt_d6
  rw [round_eq, Int.floor_eq_iff]
  constructor
  · push_cast
    linarith
  · push_cast
    linarith

theorem c6_round0 :
    round ((0 + 6371 * ((223/100000 : ℝ) * (Real.pi / 180))) / 30 * 60) = 0 := by
  have hπl : (3.141592 : ℝ) < Real.pi := Real.pi_gt_d6
  have hπu : Real.pi < 3.141593 := Real.pi_lt_d6
  rw [round_eq, Int.floor_eq_iff]
  constructor
  · push_cast
    linarith
  · push_cast
    linarith

theorem calculateStats_c6_distance :
    (calculateStats [p00, c6q]).distance = some ((25 : ℝ)/100) := by
  show jrRound2 ((statsAccum [p00, c6q]).totalDistance) = some ((25 : ℝ)/100)
  rw [statsAccum_c6]
  show some (((round ((0 + 6371 * ((223/100000 : ℝ) * (Real.pi / 180))) * 100) : ℤ) : ℝ)
    / 100) = some ((25 : ℝ)/100)
  rw [c6_round25]
  norm_num

theorem calculateStats_c6_time :
    (calculateStats [p00, c6q]).estimatedTime = some (0 : ℝ) := by
  show jrRound (jrMulC (jrDivC ((statsAccum [p00, c6q]).totalDistance) 30) 60) = some (0 : ℝ)
  rw [statsAccum_c6]
  show some (((round ((0 + 6371 * ((223/100000 : ℝ) * (Real.pi / 180))) / 30 * 60) : ℤ) : ℝ))
    = some (0 : ℝ)
  rw [c6_round0]
  norm_num

theorem calculateStats_c6_gain : (calculateStats [p00, c6q]).elevationGain = .finite 0 := by
  show jsRound ((statsAccum [p00, c6q]).elevationGain) = .finite 0
  rw [show (statsAccum [p00, c6q]).elevationGain = JsNum.finite 0 from rfl]
  simp [jsRound]

theorem calculateStats_c6_loss : (calculateStats [p00, c6q]).elevationLoss = .finite 0 := by
  show jsRound ((statsAccum [p00, c6q]).elevationLoss) = .finite 0
  rw [show (statsAccum [p00, c6q]).elevationLoss = JsNum.finite 0 from rfl]
  simp [jsRound]

/-- Counterexample to C6 as stated: for the parsed track of `c6doc` the
2-decimal-rounded distance field is 0.25 km, so the claim's formula
`round(totalDistanceKm / 30 * 60)` over that field gives `round(0.5) = 1`
minute; but the code computes `estimatedTime` from the raw pre-rounding
distance (≈ 0.24797 km) and returns `round(0.49593...) = 0` minutes. -/
theorem c6_rounded_distance_cex :
    parse c6doc = .ok c6data ∧
    c6data.estimatedTime ≠ jrRound (jrMulC (jrDivC c6data.distance 30) 60) := by
  constructor
  · rw [parse_ok_of rfl (by decide) (by decide)]
    have hpts : (selectTier c6doc).filterMap parsePoint = [p00, c6q] := rfl
    simp only [Except.ok.injEq, GPXData.mk.injEq, hpts, calculateStats_c6_distance,
      calculateStats_c6_time, calculateStats_c6_gain, calculateStats_c6_loss, c6data]
    simp
    rfl
  · show (some (0 : ℝ)) ≠ jrRound (jrMulC (jrDivC (some ((25 : ℝ)/100)) 30) 60)
    have hval : jrRound (jrMulC (jrDivC (some ((25 : ℝ)/100)) 30) 60) = some (1 : ℝ) := by
      show some (((round ((25 : ℝ)/100/30*60) : ℤ) : ℝ)) = some (1 : ℝ)
      rw [show (25 : ℝ)/100/30*60 = 1/2 from by norm_num,
        show round ((1 : ℝ)/2) = 1 from by rw [round_eq]; norm_num]
      norm_num
    rw [hval]
    simp

end C6

end AdvMoto
